import Mathlib

/-!
Verification of the sine-wave dimmer cycling engine
(custom_components/sksoft_dimmer_engine).

The engine keeps an in-memory registry mapping light entity ids to cycle
parameters, computes a sine-wave target brightness per tick, and issues a
set-brightness command when the change exceeds a per-entity deadband.

Shallow embedding conventions:
* Python floats are modelled as real numbers (ℝ); brightness values,
  which the code handles as Python ints, are modelled as ℤ.
* The Python dict registry is an association list with dict update
  semantics (replace in place, else append).
* The Home Assistant state machine is modelled as a reader function
  returning, per entity id, either none (entity unknown) or the value of
  the brightness attribute lookup (itself an Option: none when the
  attribute is absent or set to Python None).
-/

namespace SksoftDimmerEngine

/-- DEFAULT_MIN_BRIGHTNESS from const.py. -/
def DEFAULT_MIN_BRIGHTNESS : ℤ := 3

/-- The three phase modes from const.py (PHASE_MODES). -/
inductive PhaseMode where
  | sync_to_current
  | absolute
  | relative
deriving DecidableEq

/-- One registry entry, exactly the fields written by
`DimmerEngine.async_start` (REG_PERIOD .. REG_SYNC_GROUP). -/
structure CycleEntry where
  period : ℝ
  tick : ℝ
  min_b : ℤ
  max_b : ℤ
  phase_offset : ℝ
  min_delta : ℤ
  started_at : ℝ
  phase_mode : PhaseMode
  sync_group : Bool

/-- Python 3 round(): round half to even (banker's rounding); off the
half-integer ties it agrees with Mathlib's `round`.  None of the proved
properties depend on the tie-breaking direction. -/
noncomputable def py_round (x : ℝ) : ℤ :=
  if Int.fract x = 1 / 2 then (if Even ⌊x⌋ then ⌊x⌋ else ⌊x⌋ + 1)
  else round x

/-- `DimmerEngine._compute_phase_offset_for_brightness` (lines 158-174).
The `period` argument is accepted and ignored, as in the source. -/
noncomputable def compute_phase_offset_for_brightness
    (current_brightness min_b max_b : ℤ) (period : ℝ) : ℝ :=
  let mid : ℝ := ((min_b : ℝ) + (max_b : ℝ)) / 2
  let amp : ℝ := ((max_b : ℝ) - (min_b : ℝ)) / 2
  if amp = 0 then 0
  else
    let normalized := ((current_brightness : ℝ) - mid) / amp
    let normalized := max (-1 : ℝ) (min (1 : ℝ) normalized)
    Real.arcsin normalized

/-- The target-brightness computation of `DimmerEngine._update_light`
(lines 336-355): elapsed time, phase, sine wave, round, clamp. -/
noncomputable def target_brightness (e : CycleEntry) (now : ℝ) : ℤ :=
  let elapsed := now - e.started_at
  let time_phase := (2 * Real.pi * elapsed) / e.period
  let phase := time_phase + e.phase_offset
  let mid : ℝ := ((e.min_b : ℝ) + (e.max_b : ℝ)) / 2
  let amp : ℝ := ((e.max_b : ℝ) - (e.min_b : ℝ)) / 2
  let target := py_round (mid + amp * Real.sin phase)
  max e.min_b (min e.max_b target)

/-- The in-memory registry `self._registry : dict[str, dict]`, as an
association list with dict semantics (unique keys by construction). -/
abbrev Registry := List (String × CycleEntry)

/-- Dict assignment `reg[k] = v`: replace the existing binding in place,
otherwise append at the end (Python dict insertion order). -/
def dictSet (reg : Registry) (k : String) (v : CycleEntry) : Registry :=
  match reg with
  | [] => [(k, v)]
  | (k', v') :: rest =>
      if k' = k then (k, v) :: rest else (k', v') :: dictSet rest k v

/-- Dict deletion `del reg[k]` (a no-op here when `k` is absent; the
source only deletes keys it has just checked are present). -/
def dictDel (reg : Registry) (k : String) : Registry :=
  match reg with
  | [] => []
  | (k', v') :: rest =>
      if k' = k then dictDel rest k else (k', v') :: dictDel rest k

/-- Dict lookup `reg.get(k)`. -/
def dictGet (reg : Registry) (k : String) : Option CycleEntry :=
  match reg with
  | [] => none
  | (k', v') :: rest => if k' = k then some v' else dictGet rest k

/-- The Home Assistant state machine `hass.states` restricted to what the
engine reads: for an entity id, `none` when `hass.states.get` returns
None, otherwise the result of `state.attributes.get(ATTR_BRIGHTNESS)`
(`none` for an absent attribute or an attribute set to Python None). -/
abbrev StateReader := String → Option (Option ℤ)

/-- The observed-brightness step of `async_start` (lines 201-206):
`current_brightness = DEFAULT_MIN_BRIGHTNESS`, overwritten by the
attribute value only when `state and state.attributes.get(ATTR_BRIGHTNESS)`
is truthy — so a missing entity, a missing/None attribute, and a
brightness of 0 all leave the default in place. -/
def observed_brightness (reader : StateReader) (entity_id : String) : ℤ :=
  match reader entity_id with
  | some (some b) => if b = 0 then DEFAULT_MIN_BRIGHTNESS else b
  | _ => DEFAULT_MIN_BRIGHTNESS

/-- Parameters of one `async_start` call (after schema validation). -/
structure StartParams where
  period_s : ℝ
  tick_s : ℝ
  min_brightness : ℤ
  max_brightness : ℤ
  phase_mode : PhaseMode
  phase_offset : ℝ
  sync_group : Bool
  min_delta : ℤ

/-- The registry entry `async_start` writes for one entity (lines
220-230), given the phase offset chosen for it and `now = time.time()`. -/
def mk_entry (p : StartParams) (offset : ℝ) (now : ℝ) : CycleEntry :=
  { period := p.period_s
    tick := p.tick_s
    min_b := p.min_brightness
    max_b := p.max_brightness
    phase_offset := offset
    min_delta := p.min_delta
    started_at := now
    phase_mode := p.phase_mode
    sync_group := p.sync_group }

/-- Loop-carried state of the `for i, entity_id in enumerate(lights)` loop
in `async_start`: the registry, the `computed_offset` variable, and (as
instrumentation for the specification) the list of entity ids for which
`hass.states.get` was consulted. -/
structure StartState where
  registry : Registry
  computed_offset : Option ℝ
  reads : List String

/-- One iteration of the `async_start` loop (lines 193-230) for index `i`
and entity `entity_id`. -/
noncomputable def start_one (reader : StateReader) (p : StartParams) (now : ℝ)
    (s : StartState) (i : ℕ) (entity_id : String) : StartState :=
  match p.phase_mode with
  | PhaseMode.sync_to_current =>
      if p.sync_group && s.computed_offset.isSome then
        { registry := dictSet s.registry entity_id
            (mk_entry p (s.computed_offset.getD 0) now)
          computed_offset := s.computed_offset
          reads := s.reads }
      else
        let current := observed_brightness reader entity_id
        let off := compute_phase_offset_for_brightness current
          p.min_brightness p.max_brightness p.period_s
        { registry := dictSet s.registry entity_id (mk_entry p off now)
          computed_offset :=
            if p.sync_group && decide (i = 0) then some off
            else s.computed_offset
          reads := s.reads ++ [entity_id] }
  | PhaseMode.absolute =>
      { registry := dictSet s.registry entity_id (mk_entry p p.phase_offset now)
        computed_offset := s.computed_offset
        reads := s.reads }
  | PhaseMode.relative =>
      { registry := dictSet s.registry entity_id (mk_entry p p.phase_offset now)
        computed_offset := s.computed_offset
        reads := s.reads }

/-- The registry-mutation loop of `async_start` over the whole `lights`
list (the persistence and loop-start steps follow it, see the engine
operations below). -/
noncomputable def start_fold (reader : StateReader) (p : StartParams) (now : ℝ)
    (reg : Registry) (lights : List String) : StartState :=
  lights.enum.foldl (fun s pr => start_one reader p now s pr.1 pr.2)
    { registry := reg, computed_offset := none, reads := [] }

/-- What `DimmerEngine._update_light` does for one entity on one tick. -/
inductive TickAction where
  | removeEntity
  | setBrightness (target : ℤ)
  | noop
deriving DecidableEq

/-- `DimmerEngine._update_light` (lines 325-383), as the action taken for
one entity: when `hass.states.get` returns None the entity is removed
from the registry; otherwise `current = state.attributes.get(ATTR_BRIGHTNESS, 0)`
with a None value mapped to 0, and a turn-on command with the target
brightness is issued exactly when `abs(target - current) >= min_delta`. -/
noncomputable def update_light (reader : StateReader) (entity_id : String)
    (e : CycleEntry) (now : ℝ) : TickAction :=
  let target := target_brightness e now
  match reader entity_id with
  | none => TickAction.removeEntity
  | some attr =>
      let current := attr.getD 0
      if e.min_delta ≤ |target - current| then TickAction.setBrightness target
      else TickAction.noop

/-- Status of the single background loop task, with asyncio semantics:
`Task.cancel()` only requests cancellation; `Task.done()` stays False
until the event loop resumes the task and the CancelledError finishes it. -/
inductive TaskStatus where
  | alive
  | cancelRequested
  | finished
deriving DecidableEq

/-- The engine fields the lifecycle operations touch: `self._registry`,
`self._running`, and `self._task` (None or a task handle). -/
structure EngineState where
  registry : Registry
  running : Bool
  task : Option TaskStatus

/-- `DimmerEngine._stop_loop` (lines 274-279): clear `_running` and cancel
the task when it exists and is not done.  Cancellation is only requested:
the task is not done yet when this returns. -/
def stop_loop (s : EngineState) : EngineState :=
  { s with
    running := false
    task :=
      match s.task with
      | none => none
      | some TaskStatus.finished => some TaskStatus.finished
      | some _ => some TaskStatus.cancelRequested }

/-- `DimmerEngine._ensure_loop_running` (lines 289-297): spawn a fresh
task when there is none or the existing one is done. -/
def ensure_loop_running (s : EngineState) : EngineState :=
  match s.task with
  | none => { s with running := true, task := some TaskStatus.alive }
  | some TaskStatus.finished => { s with running := true, task := some TaskStatus.alive }
  | some _ => s

/-- One step of the asyncio event loop delivering a requested cancellation
into the loop task at its suspension point (`asyncio.sleep` or the lock
acquisition).  This happens at the scheduler's next pass, not after the
tick sleep elapses. -/
def scheduler_deliver_cancel (s : EngineState) : EngineState :=
  { s with
    task :=
      match s.task with
      | some TaskStatus.cancelRequested => some TaskStatus.finished
      | t => t }

/-- The part of `DimmerEngine.get_status` (lines 281-287) the claims read:
`loop_running = self._task is not None and not self._task.done()`. -/
def status_loop_running (s : EngineState) : Bool :=
  match s.task with
  | none => false
  | some TaskStatus.finished => false
  | some _ => true

/-- `DimmerEngine.async_start` (lines 176-243) at the engine level: run
the registry-mutation loop, then `await self.async_save()` (which may
raise), then — only when the save returned — `self._ensure_loop_running()`.
The second component is the operation's outcome as seen by its caller. -/
noncomputable def async_start (reader : StateReader) (p : StartParams) (now : ℝ)
    (save : Registry → Except String Unit) (lights : List String)
    (s : EngineState) : EngineState × Except String Unit :=
  let st := start_fold reader p now s.registry lights
  let s' := { s with registry := st.registry }
  match save st.registry with
  | Except.error err => (s', Except.error err)
  | Except.ok _ => (ensure_loop_running s', Except.ok ())

/-- `DimmerEngine.async_stop` (lines 245-261): delete the listed entities,
`await self.async_save()` (which may raise), then — only when the save
returned — stop the loop if the registry is now empty. -/
def async_stop (lights : List String) (save : Registry → Except String Unit)
    (s : EngineState) : EngineState × Except String Unit :=
  let reg := lights.foldl dictDel s.registry
  let s' := { s with registry := reg }
  match save reg with
  | Except.error err => (s', Except.error err)
  | Except.ok _ =>
      (if reg.isEmpty then stop_loop s' else s', Except.ok ())

/-- `DimmerEngine.async_stop_all` (lines 263-272): clear the registry,
`await self.async_save()` (which may raise), then — only when the save
returned — stop the loop. -/
def async_stop_all (save : Registry → Except String Unit)
    (s : EngineState) : EngineState × Except String Unit :=
  let s' := { s with registry := ([] : Registry) }
  match save ([] : Registry) with
  | Except.error err => (s', Except.error err)
  | Except.ok _ => (stop_loop s', Except.ok ())

/-! ### Helper lemmas -/

lemma py_round_intCast (n : ℤ) : py_round (n : ℝ) = n := by
  unfold py_round
  rw [Int.fract_intCast, if_neg (by norm_num)]
  exact round_intCast n

lemma dictGet_dictSet_self (reg : Registry) (k : String) (v : CycleEntry) :
    dictGet (dictSet reg k v) k = some v := by
  induction reg with
  | nil => simp [dictSet, dictGet]
  | cons hd tl ih =>
      obtain ⟨k', v'⟩ := hd
      by_cases h : k' = k
      · simp [dictSet, dictGet, h]
      · simp [dictSet, dictGet, h, ih]

lemma dictGet_dictSet_ne (reg : Registry) (k q : String) (v : CycleEntry)
    (h : q ≠ k) : dictGet (dictSet reg k v) q = dictGet reg q := by
  induction reg with
  | nil => simp [dictSet, dictGet, Ne.symm h]
  | cons hd tl ih =>
      obtain ⟨k', v'⟩ := hd
      by_cases hk : k' = k
      · subst hk
        simp [dictSet, dictGet, Ne.symm h]
      · simp only [dictSet, if_neg hk, dictGet]
        by_cases hq : k' = q
        · simp [hq]
        · simp [hq, ih]

lemma dictGet_foldl_dictSet_const (v : CycleEntry) (keys : List String) :
    ∀ (reg : Registry) (q : String),
      dictGet (keys.foldl (fun r e => dictSet r e v) reg) q
        = if q ∈ keys then some v else dictGet reg q := by
  induction keys with
  | nil => intro reg q; simp
  | cons a as ih =>
      intro reg q
      rw [List.foldl_cons, ih]
      by_cases hq : q ∈ as
      · simp [hq]
      · by_cases hqa : q = a
        · subst hqa
          simp [hq, dictGet_dictSet_self]
        · simp [hq, hqa, dictGet_dictSet_ne _ _ _ _ hqa]

lemma map_snd_enumFrom {α : Type _} :
    ∀ (n : ℕ) (l : List α), (l.enumFrom n).map Prod.snd = l := by
  intro n l
  induction l generalizing n with
  | nil => simp
  | cons a as ih => simp [List.enumFrom, ih]

lemma start_one_locked (reader : StateReader) (p : StartParams) (now : ℝ)
    (hm : p.phase_mode = PhaseMode.sync_to_current) (hsg : p.sync_group = true)
    (off : ℝ) (s : StartState) (hs : s.computed_offset = some off)
    (i : ℕ) (entity_id : String) :
    start_one reader p now s i entity_id
      = { registry := dictSet s.registry entity_id (mk_entry p off now)
          computed_offset := some off
          reads := s.reads } := by
  simp [start_one, hm, hsg, hs]

lemma start_fold_sync_locked (reader : StateReader) (p : StartParams) (now : ℝ)
    (hm : p.phase_mode = PhaseMode.sync_to_current) (hsg : p.sync_group = true)
    (off : ℝ) :
    ∀ (prs : List (ℕ × String)) (s : StartState),
      s.computed_offset = some off →
      prs.foldl (fun s pr => start_one reader p now s pr.1 pr.2) s
        = { registry := (prs.map Prod.snd).foldl
              (fun r e => dictSet r e (mk_entry p off now)) s.registry
            computed_offset := some off
            reads := s.reads } := by
  intro prs
  induction prs with
  | nil =>
      intro s hs
      cases s
      simp_all
  | cons pr rest ih =>
      intro s hs
      rw [List.foldl_cons, start_one_locked reader p now hm hsg off s hs pr.1 pr.2,
        ih _ rfl]
      simp

lemma start_one_const (reader : StateReader) (p : StartParams) (now : ℝ)
    (hm : p.phase_mode = PhaseMode.absolute ∨ p.phase_mode = PhaseMode.relative)
    (s : StartState) (i : ℕ) (entity_id : String) :
    start_one reader p now s i entity_id
      = { registry := dictSet s.registry entity_id (mk_entry p p.phase_offset now)
          computed_offset := s.computed_offset
          reads := s.reads } := by
  rcases hm with hm | hm <;> simp [start_one, hm]

lemma start_fold_const_mode (reader : StateReader) (p : StartParams) (now : ℝ)
    (hm : p.phase_mode = PhaseMode.absolute ∨ p.phase_mode = PhaseMode.relative) :
    ∀ (prs : List (ℕ × String)) (s : StartState),
      prs.foldl (fun s pr => start_one reader p now s pr.1 pr.2) s
        = { registry := (prs.map Prod.snd).foldl
              (fun r e => dictSet r e (mk_entry p p.phase_offset now)) s.registry
            computed_offset := s.computed_offset
            reads := s.reads } := by
  intro prs
  induction prs with
  | nil =>
      intro s
      cases s
      simp
  | cons pr rest ih =>
      intro s
      rw [List.foldl_cons, start_one_const reader p now hm s pr.1 pr.2, ih]
      simp

lemma compute_offset_eq_arcsin (observed min_b max_b : ℤ) (period : ℝ)
    (h : min_b < max_b) (h1 : min_b ≤ observed) (h2 : observed ≤ max_b) :
    compute_phase_offset_for_brightness observed min_b max_b period
      = Real.arcsin (((observed : ℝ) - ((min_b : ℝ) + (max_b : ℝ)) / 2)
          / (((max_b : ℝ) - (min_b : ℝ)) / 2)) := by
  have hlt : (min_b : ℝ) < (max_b : ℝ) := by exact_mod_cast h
  have hamp : (0 : ℝ) < ((max_b : ℝ) - (min_b : ℝ)) / 2 := by linarith
  have ho1 : (min_b : ℝ) ≤ (observed : ℝ) := by exact_mod_cast h1
  have ho2 : (observed : ℝ) ≤ (max_b : ℝ) := by exact_mod_cast h2
  have hz2 : ((observed : ℝ) - ((min_b : ℝ) + (max_b : ℝ)) / 2)
      / (((max_b : ℝ) - (min_b : ℝ)) / 2) ≤ 1 := by
    rw [div_le_one hamp]
    linarith
  have hz1 : (-1 : ℝ) ≤ ((observed : ℝ) - ((min_b : ℝ) + (max_b : ℝ)) / 2)
      / (((max_b : ℝ) - (min_b : ℝ)) / 2) := by
    rw [le_div_iff₀ hamp]
    linarith
  unfold compute_phase_offset_for_brightness
  rw [if_neg (ne_of_gt hamp)]
  simp only [min_eq_right hz2, max_eq_right hz1]

lemma target_brightness_at_start (e : CycleEntry) :
    target_brightness e e.started_at
      = max e.min_b (min e.max_b (py_round
          (((e.min_b : ℝ) + (e.max_b : ℝ)) / 2
            + ((e.max_b : ℝ) - (e.min_b : ℝ)) / 2 * Real.sin e.phase_offset))) := by
  unfold target_brightness
  simp

/-! ### Claim theorems -/

/-- C1: for every registry entry with 1 ≤ min_brightness < max_brightness ≤ 255
and period > 0, and every timestamp `now`, the target brightness computed by
the per-entity tick update (round then clamp) lies within
[min_brightness, max_brightness] inclusive. -/
theorem target_within_bounds (e : CycleEntry) (now : ℝ)
    (hmin : 1 ≤ e.min_b) (hlt : e.min_b < e.max_b) (hmax : e.max_b ≤ 255)
    (hper : 0 < e.period) :
    e.min_b ≤ target_brightness e now ∧ target_brightness e now ≤ e.max_b := by
  simp only [target_brightness]
  exact ⟨le_max_left _ _, max_le (le_of_lt hlt) (min_le_left _ _)⟩

noncomputable def c1entry : CycleEntry :=
  ⟨10, 1, 10, 200, 0, 1, 0, PhaseMode.absolute, false⟩

theorem target_within_bounds_witness :
    1 ≤ c1entry.min_b ∧ c1entry.min_b < c1entry.max_b ∧ c1entry.max_b ≤ 255 ∧
      0 < c1entry.period ∧
      c1entry.min_b ≤ target_brightness c1entry 5 ∧
      target_brightness c1entry 5 ≤ c1entry.max_b := by
  refine ⟨by decide, by decide, by decide, by norm_num [c1entry], ?_, ?_⟩
  · exact (target_within_bounds c1entry 5 (by decide) (by decide) (by decide)
      (by norm_num [c1entry])).1
  · exact (target_within_bounds c1entry 5 (by decide) (by decide) (by decide)
      (by norm_num [c1entry])).2

/-- C2: for every entry with period > 0 and every time `t`, the target
brightness at `t` equals the target brightness at `t + period` (the
sine-wave evaluation is periodic, exactly — hence also within rounding). -/
theorem target_periodic (e : CycleEntry) (now : ℝ) (hper : 0 < e.period) :
    target_brightness e (now + e.period) = target_brightness e now := by
  have hp' : e.period ≠ 0 := ne_of_gt hper
  have h : 2 * Real.pi * (now + e.period - e.started_at) / e.period + e.phase_offset
      = 2 * Real.pi * (now - e.started_at) / e.period + e.phase_offset
        + 2 * Real.pi := by
    field_simp
    ring
  simp only [target_brightness]
  rw [h, Real.sin_add_two_pi]

noncomputable def c2entry : CycleEntry :=
  ⟨10, 1, 10, 200, 1, 1, 0, PhaseMode.absolute, false⟩

theorem target_periodic_witness :
    0 < c2entry.period ∧
      target_brightness c2entry (3 + c2entry.period)
        = target_brightness c2entry 3 :=
  ⟨by norm_num [c2entry], target_periodic c2entry 3 (by norm_num [c2entry])⟩

/-- C3: for an observed brightness inside [min_brightness, max_brightness]
with min_brightness < max_brightness, storing the offset computed by
`_compute_phase_offset_for_brightness` and evaluating the tick target at
elapsed time 0 reproduces the observed brightness (exactly, hence within
±1). -/
theorem sync_roundtrip_within_one (e : CycleEntry) (observed : ℤ)
    (hlt : e.min_b < e.max_b) (h1 : e.min_b ≤ observed) (h2 : observed ≤ e.max_b)
    (hoff : e.phase_offset
      = compute_phase_offset_for_brightness observed e.min_b e.max_b e.period) :
    target_brightness e e.started_at = observed ∧
    |target_brightness e e.started_at - observed| ≤ 1 := by
  have hltR : (e.min_b : ℝ) < (e.max_b : ℝ) := by exact_mod_cast hlt
  have hamp : (0 : ℝ) < ((e.max_b : ℝ) - (e.min_b : ℝ)) / 2 := by linarith
  have hne : ((e.max_b : ℝ) - (e.min_b : ℝ)) / 2 ≠ 0 := ne_of_gt hamp
  have ho1 : (e.min_b : ℝ) ≤ (observed : ℝ) := by exact_mod_cast h1
  have ho2 : (observed : ℝ) ≤ (e.max_b : ℝ) := by exact_mod_cast h2
  have hz2 : ((observed : ℝ) - ((e.min_b : ℝ) + (e.max_b : ℝ)) / 2)
      / (((e.max_b : ℝ) - (e.min_b : ℝ)) / 2) ≤ 1 := by
    rw [div_le_one hamp]
    linarith
  have hz1 : (-1 : ℝ) ≤ ((observed : ℝ) - ((e.min_b : ℝ) + (e.max_b : ℝ)) / 2)
      / (((e.max_b : ℝ) - (e.min_b : ℝ)) / 2) := by
    rw [le_div_iff₀ hamp]
    linarith
  have hsin : Real.sin e.phase_offset
      = ((observed : ℝ) - ((e.min_b : ℝ) + (e.max_b : ℝ)) / 2)
        / (((e.max_b : ℝ) - (e.min_b : ℝ)) / 2) := by
    rw [hoff, compute_offset_eq_arcsin _ _ _ _ hlt h1 h2]
    exact Real.sin_arcsin hz1 hz2
  have hval : ((e.min_b : ℝ) + (e.max_b : ℝ)) / 2
      + ((e.max_b : ℝ) - (e.min_b : ℝ)) / 2 * Real.sin e.phase_offset
      = (observed : ℝ) := by
    rw [hsin, mul_div_cancel₀ _ hne]
    ring
  have htarget : target_brightness e e.started_at = observed := by
    rw [target_brightness_at_start, hval, py_round_intCast,
      min_eq_right h2, max_eq_right h1]
  refine ⟨htarget, ?_⟩
  rw [htarget]
  simp

noncomputable def c3entry : CycleEntry :=
  ⟨10, 1, 10, 200, compute_phase_offset_for_brightness 57 10 200 10, 1, 0,
    PhaseMode.sync_to_current, true⟩

theorem sync_roundtrip_within_one_witness :
    c3entry.min_b < c3entry.max_b ∧ c3entry.min_b ≤ 57 ∧ (57 : ℤ) ≤ c3entry.max_b ∧
      c3entry.phase_offset
        = compute_phase_offset_for_brightness 57 c3entry.min_b c3entry.max_b
            c3entry.period ∧
      target_brightness c3entry c3entry.started_at = 57 ∧
      |target_brightness c3entry c3entry.started_at - 57| ≤ 1 := by
  refine ⟨by decide, by decide, by decide, rfl, ?_, ?_⟩
  · exact (sync_roundtrip_within_one c3entry 57 (by decide) (by decide)
      (by decide) rfl).1
  · exact (sync_roundtrip_within_one c3entry 57 (by decide) (by decide)
      (by decide) rfl).2

/-- C10: for every observed brightness and min < max, the reverse phase
offset lies in [-π/2, π/2] (the range of asin), and the cosine of the
offset is nonnegative — a cycle started there begins on the ascending
half of the sine wave. -/
theorem reverse_offset_in_asin_range (observed min_b max_b : ℤ) (period : ℝ)
    (h : min_b < max_b) :
    -(Real.pi / 2) ≤ compute_phase_offset_for_brightness observed min_b max_b period ∧
    compute_phase_offset_for_brightness observed min_b max_b period ≤ Real.pi / 2 ∧
    0 ≤ Real.cos (compute_phase_offset_for_brightness observed min_b max_b period) := by
  have hlt : (min_b : ℝ) < (max_b : ℝ) := by exact_mod_cast h
  have hamp : (0 : ℝ) < ((max_b : ℝ) - (min_b : ℝ)) / 2 := by linarith
  unfold compute_phase_offset_for_brightness
  rw [if_neg (ne_of_gt hamp)]
  exact ⟨Real.neg_pi_div_two_le_arcsin _, Real.arcsin_le_pi_div_two _,
    Real.cos_arcsin_nonneg _⟩

theorem reverse_offset_in_asin_range_witness :
    (10 : ℤ) < 200 ∧
      -(Real.pi / 2) ≤ compute_phase_offset_for_brightness 240 10 200 10 ∧
      compute_phase_offset_for_brightness 240 10 200 10 ≤ Real.pi / 2 ∧
      0 ≤ Real.cos (compute_phase_offset_for_brightness 240 10 200 10) :=
  ⟨by decide, reverse_offset_in_asin_range 240 10 200 10 (by decide)⟩

lemma map_snd_enum {α : Type _} (l : List α) : l.enum.map Prod.snd = l := by
  simp [List.enum, map_snd_enumFrom]

/-- C4: a start call with phase_mode = sync_to_current, sync_group = true and
at least two lights stores, for every light in the list, the phase offset
computed from the first light's observed brightness, and consults the state
reader only for the first light. -/
theorem sync_group_single_read (reader : StateReader) (p : StartParams) (now : ℝ)
    (reg : Registry) (first : String) (rest : List String)
    (hm : p.phase_mode = PhaseMode.sync_to_current) (hsg : p.sync_group = true)
    (hrest : rest ≠ []) :
    (start_fold reader p now reg (first :: rest)).reads = [first] ∧
    ∀ k ∈ first :: rest,
      ∃ e, dictGet (start_fold reader p now reg (first :: rest)).registry k = some e ∧
        e.phase_offset
          = compute_phase_offset_for_brightness (observed_brightness reader first)
              p.min_brightness p.max_brightness p.period_s := by
  have h0 : start_one reader p now ⟨reg, none, []⟩ 0 first
      = ⟨dictSet reg first
            (mk_entry p
              (compute_phase_offset_for_brightness (observed_brightness reader first)
                p.min_brightness p.max_brightness p.period_s) now),
          some (compute_phase_offset_for_brightness (observed_brightness reader first)
            p.min_brightness p.max_brightness p.period_s),
          [first]⟩ := by
    simp [start_one, hm, hsg]
  have henum : (first :: rest).enum = (0, first) :: rest.enumFrom 1 := rfl
  unfold start_fold
  rw [henum, List.foldl_cons, h0,
    start_fold_sync_locked reader p now hm hsg _ _ _ rfl, map_snd_enumFrom]
  refine ⟨rfl, ?_⟩
  intro k hk
  refine ⟨mk_entry p
      (compute_phase_offset_for_brightness (observed_brightness reader first)
        p.min_brightness p.max_brightness p.period_s) now, ?_, rfl⟩
  rw [dictGet_foldl_dictSet_const]
  by_cases hmem : k ∈ rest
  · simp [hmem]
  · rcases List.mem_cons.mp hk with h | h
    · subst h
      simp [hmem, dictGet_dictSet_self]
    · exact absurd h hmem

def entA : String := "light.a"

def entB : String := "light.b"

def c4reader : StateReader := fun i => if i = entA then some (some 120) else some (some 30)

noncomputable def c4params : StartParams :=
  ⟨10, 1, 10, 200, PhaseMode.sync_to_current, 0, true, 1⟩

theorem sync_group_single_read_witness :
    c4params.phase_mode = PhaseMode.sync_to_current ∧ c4params.sync_group = true ∧
      ([entB] : List String) ≠ [] ∧
      (start_fold c4reader c4params 0 [] (entA :: [entB])).reads = [entA] ∧
      ∀ k ∈ entA :: [entB],
        ∃ e, dictGet (start_fold c4reader c4params 0 [] (entA :: [entB])).registry k
              = some e ∧
          e.phase_offset
            = compute_phase_offset_for_brightness (observed_brightness c4reader entA)
                c4params.min_brightness c4params.max_brightness c4params.period_s := by
  refine ⟨rfl, rfl, by simp, ?_, ?_⟩
  · exact (sync_group_single_read c4reader c4params 0 [] entA [entB] rfl rfl
      (by simp)).1
  · exact (sync_group_single_read c4reader c4params 0 [] entA [entB] rfl rfl
      (by simp)).2

/-- C5: on a tick, for an entity the state machine knows, a set-brightness
command is issued if and only if |target − current| ≥ min_delta, with
`current` the observed brightness attribute (0 when absent or None);
otherwise nothing is done for that entity this tick. -/
theorem deadband_gates_command (reader : StateReader) (entity_id : String)
    (e : CycleEntry) (now : ℝ) (attr : Option ℤ)
    (h : reader entity_id = some attr) :
    (update_light reader entity_id e now
        = TickAction.setBrightness (target_brightness e now)
      ↔ e.min_delta ≤ |target_brightness e now - attr.getD 0|) ∧
    (¬ e.min_delta ≤ |target_brightness e now - attr.getD 0| →
      update_light reader entity_id e now = TickAction.noop) := by
  by_cases hd : e.min_delta ≤ |target_brightness e now - attr.getD 0| <;>
    simp [update_light, h, hd]

def c5reader : StateReader := fun _ => some (some 30)

noncomputable def c5entry : CycleEntry :=
  ⟨10, 1, 10, 200, 0, 1, 0, PhaseMode.absolute, false⟩

theorem deadband_gates_command_witness :
    c5reader entA = some (some 30) ∧
      ((update_light c5reader entA c5entry 0
          = TickAction.setBrightness (target_brightness c5entry 0)
        ↔ c5entry.min_delta ≤ |target_brightness c5entry 0 - (some (30 : ℤ)).getD 0|) ∧
       (¬ c5entry.min_delta ≤ |target_brightness c5entry 0 - (some (30 : ℤ)).getD 0| →
        update_light c5reader entA c5entry 0 = TickAction.noop)) :=
  ⟨rfl, deadband_gates_command c5reader entA c5entry 0 (some 30) rfl⟩

/-- C8: phase modes absolute and relative are interchangeable: start calls
identical except for that label store entries equal in every field except
phase_mode (both store the caller-supplied phase_offset verbatim), leave
every other key of the registry identical, and the tick evaluation does not
read phase_mode. -/
theorem absolute_relative_same_behavior (reader : StateReader) (p : StartParams)
    (now : ℝ) (reg : Registry) (lights : List String)
    (hm : p.phase_mode = PhaseMode.absolute) :
    (∀ k ∈ lights,
        dictGet (start_fold reader p now reg lights).registry k
          = some (mk_entry p p.phase_offset now) ∧
        dictGet (start_fold reader { p with phase_mode := PhaseMode.relative }
            now reg lights).registry k
          = some (mk_entry { p with phase_mode := PhaseMode.relative }
              p.phase_offset now) ∧
        (mk_entry p p.phase_offset now).phase_offset = p.phase_offset ∧
        mk_entry { p with phase_mode := PhaseMode.relative } p.phase_offset now
          = { mk_entry p p.phase_offset now with phase_mode := PhaseMode.relative }) ∧
    (∀ k, k ∉ lights →
        dictGet (start_fold reader p now reg lights).registry k
          = dictGet (start_fold reader { p with phase_mode := PhaseMode.relative }
              now reg lights).registry k) ∧
    (∀ (e : CycleEntry) (m : PhaseMode) (t : ℝ),
        target_brightness { e with phase_mode := m } t = target_brightness e t) := by
  have hA := start_fold_const_mode reader p now (Or.inl hm) lights.enum
    ⟨reg, none, []⟩
  have hR := start_fold_const_mode reader { p with phase_mode := PhaseMode.relative }
    now (Or.inr rfl) lights.enum ⟨reg, none, []⟩
  refine ⟨?_, ?_, fun e m t => rfl⟩
  · intro k hk
    refine ⟨?_, ?_, rfl, rfl⟩
    · unfold start_fold
      rw [hA]
      simp only [map_snd_enum]
      rw [dictGet_foldl_dictSet_const]
      simp [hk]
    · unfold start_fold
      rw [hR]
      simp only [map_snd_enum]
      rw [dictGet_foldl_dictSet_const]
      simp [hk]
  · intro k hk
    unfold start_fold
    rw [hA, hR]
    simp only [map_snd_enum]
    rw [dictGet_foldl_dictSet_const, dictGet_foldl_dictSet_const]
    simp [hk]

noncomputable def c8params : StartParams :=
  ⟨10, 1, 10, 200, PhaseMode.absolute, 2, false, 1⟩

def c8reader : StateReader := fun _ => some (some 30)

theorem absolute_relative_same_behavior_witness :
    c8params.phase_mode = PhaseMode.absolute ∧
      ((∀ k ∈ [entA],
          dictGet (start_fold c8reader c8params 0 [] [entA]).registry k
            = some (mk_entry c8params c8params.phase_offset 0) ∧
          dictGet (start_fold c8reader { c8params with phase_mode := PhaseMode.relative }
              0 [] [entA]).registry k
            = some (mk_entry { c8params with phase_mode := PhaseMode.relative }
                c8params.phase_offset 0) ∧
          (mk_entry c8params c8params.phase_offset 0).phase_offset
            = c8params.phase_offset ∧
          mk_entry { c8params with phase_mode := PhaseMode.relative }
              c8params.phase_offset 0
            = { mk_entry c8params c8params.phase_offset 0 with
                phase_mode := PhaseMode.relative }) ∧
       (∀ k, k ∉ [entA] →
          dictGet (start_fold c8reader c8params 0 [] [entA]).registry k
            = dictGet (start_fold c8reader
                { c8params with phase_mode := PhaseMode.relative } 0 [] [entA]).registry k) ∧
       (∀ (e : CycleEntry) (m : PhaseMode) (t : ℝ),
          target_brightness { e with phase_mode := m } t = target_brightness e t)) :=
  ⟨rfl, absolute_relative_same_behavior c8reader c8params 0 [] [entA] rfl⟩

/-- C9: in a sync_to_current start, a brightness attribute that is present
but 0 (or None) is treated like a missing attribute: the observed
brightness defaults to DEFAULT_MIN_BRIGHTNESS = 3 before the phase offset
is computed. -/
theorem falsy_brightness_defaults (r0 rN rA : StateReader) (eid : String)
    (h0 : r0 eid = some (some 0)) (hN : rN eid = some none) (hA : rA eid = none)
    (p : StartParams) (hm : p.phase_mode = PhaseMode.sync_to_current)
    (now : ℝ) (reg : Registry) :
    observed_brightness r0 eid = DEFAULT_MIN_BRIGHTNESS ∧
    observed_brightness rN eid = DEFAULT_MIN_BRIGHTNESS ∧
    observed_brightness rA eid = DEFAULT_MIN_BRIGHTNESS ∧
    DEFAULT_MIN_BRIGHTNESS = 3 ∧
    dictGet (start_fold r0 p now reg [eid]).registry eid
      = some (mk_entry p
          (compute_phase_offset_for_brightness DEFAULT_MIN_BRIGHTNESS
            p.min_brightness p.max_brightness p.period_s) now) := by
  have hobs : observed_brightness r0 eid = DEFAULT_MIN_BRIGHTNESS := by
    simp [observed_brightness, h0]
  refine ⟨hobs, by simp [observed_brightness, hN], by simp [observed_brightness, hA],
    rfl, ?_⟩
  unfold start_fold
  have henum : ([eid] : List String).enum = [(0, eid)] := rfl
  rw [henum, List.foldl_cons, List.foldl_nil]
  simp [start_one, hm, hobs, dictGet_dictSet_self]

def c9readerZero : StateReader := fun _ => some (some 0)

def c9readerNone : StateReader := fun _ => some none

def c9readerAbsent : StateReader := fun _ => none

noncomputable def c9params : StartParams :=
  ⟨10, 1, 10, 200, PhaseMode.sync_to_current, 0, true, 1⟩

theorem falsy_brightness_defaults_witness :
    c9readerZero entA = some (some 0) ∧ c9readerNone entA = some none ∧
      c9readerAbsent entA = none ∧
      c9params.phase_mode = PhaseMode.sync_to_current ∧
      (observed_brightness c9readerZero entA = DEFAULT_MIN_BRIGHTNESS ∧
       observed_brightness c9readerNone entA = DEFAULT_MIN_BRIGHTNESS ∧
       observed_brightness c9readerAbsent entA = DEFAULT_MIN_BRIGHTNESS ∧
       DEFAULT_MIN_BRIGHTNESS = 3 ∧
       dictGet (start_fold c9readerZero c9params 0 [] [entA]).registry entA
         = some (mk_entry c9params
             (compute_phase_offset_for_brightness DEFAULT_MIN_BRIGHTNESS
               c9params.min_brightness c9params.max_brightness c9params.period_s) 0)) :=
  ⟨rfl, rfl, rfl, rfl,
    falsy_brightness_defaults c9readerZero c9readerNone c9readerAbsent entA
      rfl rfl rfl c9params rfl 0 []⟩

noncomputable def c6entry : CycleEntry :=
  ⟨10, 1, 10, 200, 0, 1, 0, PhaseMode.absolute, false⟩

noncomputable def c6state : EngineState :=
  ⟨[(entA, c6entry)], true, some TaskStatus.alive⟩

def saveOk : Registry → Except String Unit := fun _ => Except.ok ()

/-- C6 counterexample: with exactly one tracked entity and a live loop task,
`async_stop` for that entity cancels the task, but with asyncio semantics
`Task.done()` is still False at the instant the stop operation returns (the
CancelledError has not been delivered yet), so `get_status().loop_running`
is still true — not false as the claim states. -/
theorem stop_last_loop_running_still_true :
    status_loop_running ((async_stop [entA] saveOk c6state).1) = true := by
  decide

/-- C6 amended: `async_stop` that empties the registry stops the loop
synchronously — it clears the running flag and requests cancellation of the
live task before returning — and `loop_running` becomes false as soon as the
event loop delivers the cancellation at the loop's suspension point, without
waiting for the tick sleep to elapse or for the loop's next wake. -/
theorem stop_last_requests_cancel (lights : List String) (s : EngineState)
    (save : Registry → Except String Unit)
    (htask : s.task = some TaskStatus.alive)
    (hempty : (lights.foldl dictDel s.registry).isEmpty = true)
    (hsave : save (lights.foldl dictDel s.registry) = Except.ok ()) :
    (async_stop lights save s).1.running = false ∧
    (async_stop lights save s).1.task = some TaskStatus.cancelRequested ∧
    status_loop_running (scheduler_deliver_cancel (async_stop lights save s).1)
      = false := by
  simp [async_stop, hsave, hempty, stop_loop, htask, scheduler_deliver_cancel,
    status_loop_running]

theorem stop_last_requests_cancel_witness :
    c6state.task = some TaskStatus.alive ∧
      ([entA].foldl dictDel c6state.registry).isEmpty = true ∧
      saveOk ([entA].foldl dictDel c6state.registry) = Except.ok () ∧
      ((async_stop [entA] saveOk c6state).1.running = false ∧
       (async_stop [entA] saveOk c6state).1.task = some TaskStatus.cancelRequested ∧
       status_loop_running
           (scheduler_deliver_cancel (async_stop [entA] saveOk c6state).1)
         = false) :=
  ⟨rfl, by decide, rfl,
    stop_last_requests_cancel [entA] c6state saveOk rfl (by decide) rfl⟩

/-- C7: when the persistence save raises, the error propagates to the caller
of the start, stop, or stop-all operation that triggered it, while the
in-memory registry keeps the mutation performed before the save (entries
inserted by start, removed by stop, cleared by stop-all). -/
theorem save_failure_keeps_mutation
    (reader : StateReader) (p : StartParams) (now : ℝ)
    (sv1 sv2 sv3 : Registry → Except String Unit)
    (lights1 lights2 : List String) (s1 s2 s3 : EngineState)
    (e1 e2 e3 : String)
    (h1 : sv1 (start_fold reader p now s1.registry lights1).registry
      = Except.error e1)
    (h2 : sv2 (lights2.foldl dictDel s2.registry) = Except.error e2)
    (h3 : sv3 ([] : Registry) = Except.error e3) :
    async_start reader p now sv1 lights1 s1
      = ({ s1 with registry := (start_fold reader p now s1.registry lights1).registry },
          Except.error e1) ∧
    async_stop lights2 sv2 s2
      = ({ s2 with registry := lights2.foldl dictDel s2.registry }, Except.error e2) ∧
    async_stop_all sv3 s3
      = ({ s3 with registry := ([] : Registry) }, Except.error e3) := by
  refine ⟨?_, ?_, ?_⟩
  · simp [async_start, h1]
  · simp [async_stop, h2]
  · simp [async_stop_all, h3]

def saveErrMsg : String := "save failed"

def errSave : Registry → Except String Unit := fun _ => Except.error saveErrMsg

def c7reader : StateReader := fun _ => some (some 30)

noncomputable def c7params : StartParams :=
  ⟨10, 1, 10, 200, PhaseMode.absolute, 0, false, 1⟩

noncomputable def c7entry : CycleEntry :=
  ⟨10, 1, 10, 200, 0, 1, 0, PhaseMode.absolute, false⟩

noncomputable def c7state : EngineState :=
  ⟨[(entB, c7entry)], true, some TaskStatus.alive⟩

theorem save_failure_keeps_mutation_witness :
    errSave (start_fold c7reader c7params 0 c7state.registry [entA]).registry
        = Except.error saveErrMsg ∧
      errSave ([entB].foldl dictDel c7state.registry) = Except.error saveErrMsg ∧
      errSave ([] : Registry) = Except.error saveErrMsg ∧
      (async_start c7reader c7params 0 errSave [entA] c7state
        = ({ c7state with
              registry := (start_fold c7reader c7params 0 c7state.registry [entA]).registry },
            Except.error saveErrMsg) ∧
       async_stop [entB] errSave c7state
        = ({ c7state with registry := [entB].foldl dictDel c7state.registry },
            Except.error saveErrMsg) ∧
       async_stop_all errSave c7state
        = ({ c7state with registry := ([] : Registry) }, Except.error saveErrMsg)) :=
  ⟨rfl, rfl, rfl,
    save_failure_keeps_mutation c7reader c7params 0 errSave errSave errSave
      [entA] [entB] c7state c7state c7state saveErrMsg saveErrMsg saveErrMsg
      rfl rfl rfl⟩

end SksoftDimmerEngine
